import Mathlib

/-!
Verification development for scripts/build_noto_ttf_subset.py.

The script is a sequential command-line pipeline: argument handling, an
optional CFF pre-subset (Stage A), an out-of-process CFF to TrueType
conversion (Stage B), an optional second subset or a plain copy (Stage C or
the direct TrueType path), and a table-presence verification at two
checkpoints.  The embedding below models file contents as byte lists, the
two external tools (the subsetting library and the FontForge engine) as
oracles supplied by a `World`, and font parsing (`fontTools.ttLib.TTFont`)
as a `World` function from bytes to an optional table summary, where `none`
models any parsing exception.  `main` mirrors the control flow of the
Python `main` line by line; exceptions raised by the external tools are
modelled with `Except`, and an uncaught exception terminates the run in the
`Outcome.raised` state.
-/

namespace BuildNoto

/-- Summary of the tables of a successfully parsed font, as read by
`check_ttf_tables`: presence of the glyf and loca tables, and the
`numGlyphs` field of the maxp table when that table is present. -/
structure FontTables where
  hasGlyf : Bool
  hasLoca : Bool
  maxp : Option Int
deriving DecidableEq, Repr

/-- Result of `check_ttf_tables(path)` (lines 69-78), translated to act on
the parse outcome of the bytes at `path`: `none` models `TTFont(path)`
raising.  Returns `(has_glyf and has_loca, has_glyf, has_loca, num_glyphs)`
on success and `(False, False, False, -1)` on any parse failure; the
function is total, it never raises. -/
def check_ttf_tables (r : Option FontTables) : Bool × Bool × Bool × Int :=
  match r with
  | none => (false, false, false, -1)
  | some t =>
    (t.hasGlyf && t.hasLoca, t.hasGlyf, t.hasLoca,
      match t.maxp with
      | some n => n
      | none => -1)

/-- The fixed preset table of the script (lines 30-36), in source order. -/
def PRESETS : List (String × String) :=
  [("sc-min", "U+0020-007E,U+00A0-00FF,U+2000-206F,U+3000-303F,U+FF00-FFEF,U+4E00-9FFF"),
   ("tc-min", "U+0020-007E,U+00A0-00FF,U+2000-206F,U+3000-303F,U+FF00-FFEF,U+4E00-9FFF"),
   ("sc-bmp", "U+0020-007E,U+00A0-00FF,U+2000-206F,U+3000-303F,U+FF00-FFEF,U+4E00-9FFF,U+3400-4DBF"),
   ("tc-bmp", "U+0020-007E,U+00A0-00FF,U+2000-206F,U+3000-303F,U+FF00-FFEF,U+4E00-9FFF,U+3400-4DBF")]

/-- Dictionary lookup `PRESETS.get(k)`. -/
def presetsGet (k : String) : Option String :=
  List.lookup k PRESETS

/-- Python truthiness of an optional string flag: absent and the empty
string are both falsy (`if args.text_file:` and friends). -/
def truthy : Option String → Bool
  | none => false
  | some s => s != ""

/-- Python `x or d` on an optional string: the default is taken when the
value is absent or empty (`args.preset or "sc-min"`). -/
def pyOr (o : Option String) (d : String) : String :=
  match o with
  | none => d
  | some s => if s = "" then d else s

/-- ASCII lowering of one character, modelling `str.lower()` on the
extension strings the script compares. -/
def pyLowerChar (c : Char) : Char :=
  if 65 ≤ c.toNat && c.toNat ≤ 90 then Char.ofNat (c.toNat + 32) else c

/-- Model of `str.lower()`. -/
def pyLower (s : String) : String :=
  String.mk (s.data.map pyLowerChar)

/-- Python `str.rfind(c)`: index of the last occurrence, `-1` if absent. -/
def pyRfind (l : List Char) (c : Char) : Int :=
  match l.reverse.findIdx? (fun x => x == c) with
  | none => -1
  | some i => (l.length : Int) - 1 - (i : Int)

/-- Extension part of `os.path.splitext(p)` on a POSIX path: the suffix
from the last dot, provided that dot lies after the last separator and a
non-dot character stands between them (leading dots of the basename do not
start an extension). -/
def splitextExt (p : String) : String :=
  let l := p.data
  let sepIndex := pyRfind l '/'
  let dotIndex := pyRfind l '.'
  if sepIndex < dotIndex then
    let start := (sepIndex + 1).toNat
    let stop := dotIndex.toNat
    let between := (l.drop start).take (stop - start)
    if between.any (fun ch => ch != '.') then String.mk (l.drop stop) else ""
  else ""

/-- Pipeline configuration parsed from the command line (lines 88-99).
`min_glyphs` is an `Int` since `argparse` with `type=int` admits negative
values. -/
structure Args where
  in_font : String
  out_font : String
  preset : Option String
  unicodes : Option String
  text_file : Option String
  no_second_subset : Bool
  min_glyphs : Int
deriving DecidableEq, Repr

/-- Distinguishes the two flag sets the script passes to the subsetter:
the CFF pre-subset flags of Stage A and the TrueType flags (glyph names,
no retained gids, passthrough tables) of Stage C and the direct path. -/
inductive SubsetKind
  | cff
  | ttf
deriving DecidableEq, Repr

/-- Selection criterion handed to one subsetting invocation: either a
`--text-file` path or a `--unicodes` range string. -/
inductive Criterion
  | textFile (p : String)
  | unicodes (u : String)
deriving DecidableEq, Repr

/-- External behaviour the run interacts with.  `inputIsFile` answers
`os.path.isfile`, `inputBytes` is the content of the input path, `parse`
is the `TTFont` parser on file bytes (`none` for a raising parse),
`subsetRun` is the subsetting library producing output bytes or raising,
and `ffRun` is the FontForge conversion, likewise fallible (covering both
the missing-executable error and a non-zero subprocess exit). -/
structure World where
  inputIsFile : Bool
  inputBytes : List Nat
  parse : List Nat → Option FontTables
  subsetRun : SubsetKind → List Nat → Criterion → Except Unit (List Nat)
  ffRun : List Nat → Except Unit (List Nat)

/-- How a run terminates: `sys.exit(code)` / normal return (code 0), or an
uncaught exception. -/
inductive Outcome
  | exited (code : Nat)
  | raised
deriving DecidableEq, Repr

/-- Which of the three dispatch branches of the driver executed. -/
inductive Pipe
  | otf
  | ttfSubset
  | ttfCopy
deriving DecidableEq, Repr

/-- Observable trace of one run: terminal state, stderr lines, which
filesystem effects happened, the branch taken, the subsetting invocations
with their criteria, the bytes written to the intermediate and final
paths (still present at termination), and which copy happened. -/
structure RunResult where
  outcome : Outcome
  stderr : List String
  madeOutDir : Bool
  madeTmpDir : Bool
  removedTmpDir : Bool
  pipeline : Option Pipe
  subsetCalls : List (SubsetKind × Criterion)
  interWritten : Option (List Nat)
  outWritten : Option (List Nat)
  copiedInputToOut : Bool
  copiedInterToOut : Bool
deriving DecidableEq, Repr

/-- Python `str(bool)`. -/
def pyBoolStr (b : Bool) : String :=
  if b then "True" else "False"

/-- Stderr line of the exit-1 path (line 102). -/
def exit1Msg (args : Args) : String :=
  "ERROR: input not found: " ++ args.in_font

/-- Stderr line of the exit-2 path (line 147). -/
def exit2Msg (g l : Bool) (n : Int) : String :=
  "ERROR: Converted TTF invalid or too few glyphs (glyf=" ++ pyBoolStr g ++
    ", loca=" ++ pyBoolStr l ++ ", numGlyphs=" ++ toString n ++ ")."

/-- Stderr line of the exit-3 path (line 218). -/
def exit3Msg (g l : Bool) (n m : Int) : String :=
  "[X] Verification failed: glyf=" ++ pyBoolStr g ++ ", loca=" ++ pyBoolStr l ++
    ", numGlyphs=" ++ toString n ++ " (< " ++ toString m ++ ")."

/-- The verification predicate used at both checkpoints:
`not ok or num_glyphs < args.min_glyphs` (lines 146 and 216). -/
def failsCheck (minGlyphs : Int) (w : World) (c : List Nat) : Bool :=
  let t := check_ttf_tables (w.parse c)
  !t.1 || decide (t.2.2.2 < minGlyphs)

/-- Resolution of the unicodes argument shared by the non-text branches of
all three subsetting sites: `args.unicodes` when truthy, else
`PRESETS.get(args.preset or "sc-min")` (lines 125-129, 168, 198).  The
result is an `Option` because the dictionary lookup can miss. -/
def resolveU (args : Args) : Option String :=
  match args.unicodes with
  | some u => if u = "" then presetsGet (pyOr args.preset "sc-min") else some u
  | none => presetsGet (pyOr args.preset "sc-min")

/-- Criterion resolution performed at each of the three subsetting sites
(Stage A lines 114-138, Stage C lines 155-179, direct path lines 183-209;
the three code blocks are identical in effect): the text file when truthy,
otherwise the resolved unicodes string.  A missing preset lookup makes the
script concatenate `None` into the argument list, a raising `TypeError`,
modelled by the `error` case; `argparse` choices make it unreachable. -/
def stageCriterion (args : Args) : Except Unit Criterion :=
  if truthy args.text_file then Except.ok (Criterion.textFile (args.text_file.getD ""))
  else
    match resolveU args with
    | some u => Except.ok (Criterion.unicodes u)
    | none => Except.error ()

/-- Terminal state of a run killed by an uncaught exception inside the
`try` block: the cleanup `finally` still removes the temp directory. -/
def raisedRun (pipe : Pipe) (calls : List (SubsetKind × Criterion))
    (inter : Option (List Nat)) : RunResult :=
  { outcome := Outcome.raised, stderr := [], madeOutDir := true, madeTmpDir := true,
    removedTmpDir := true, pipeline := some pipe, subsetCalls := calls,
    interWritten := inter, outWritten := none,
    copiedInputToOut := false, copiedInterToOut := false }

/-- Final verification (lines 215-228) applied to the bytes written at the
output path, shared by every branch that produced an output file. -/
def verifyFinal (args : Args) (w : World) (pipe : Pipe)
    (calls : List (SubsetKind × Criterion)) (inter : Option (List Nat))
    (copiedIn copiedInter : Bool) (outC : List Nat) : RunResult :=
  let t := check_ttf_tables (w.parse outC)
  if failsCheck args.min_glyphs w outC then
    { outcome := Outcome.exited 3,
      stderr := [exit3Msg t.2.1 t.2.2.1 t.2.2.2 args.min_glyphs],
      madeOutDir := true, madeTmpDir := true, removedTmpDir := true,
      pipeline := some pipe, subsetCalls := calls, interWritten := inter,
      outWritten := some outC,
      copiedInputToOut := copiedIn, copiedInterToOut := copiedInter }
  else
    { outcome := Outcome.exited 0, stderr := [], madeOutDir := true,
      madeTmpDir := true, removedTmpDir := true, pipeline := some pipe,
      subsetCalls := calls, interWritten := inter, outWritten := some outC,
      copiedInputToOut := copiedIn, copiedInterToOut := copiedInter }

/-- The OTF pipeline (lines 111-179): Stage A pre-subset, Stage B FontForge
conversion, intermediate verification with exit 2, then either a plain copy
of the intermediate (`--no-second-subset`) or the Stage C subset, and the
shared final verification. -/
def otfRun (args : Args) (w : World) : RunResult :=
  match stageCriterion args with
  | Except.error _ => raisedRun Pipe.otf [] none
  | Except.ok critA =>
    match w.subsetRun SubsetKind.cff w.inputBytes critA with
    | Except.error _ => raisedRun Pipe.otf [(SubsetKind.cff, critA)] none
    | Except.ok subsetOtf =>
      match w.ffRun subsetOtf with
      | Except.error _ => raisedRun Pipe.otf [(SubsetKind.cff, critA)] none
      | Except.ok inter =>
        let t := check_ttf_tables (w.parse inter)
        if failsCheck args.min_glyphs w inter then
          { outcome := Outcome.exited 2,
            stderr := [exit2Msg t.2.1 t.2.2.1 t.2.2.2],
            madeOutDir := true, madeTmpDir := true, removedTmpDir := true,
            pipeline := some Pipe.otf, subsetCalls := [(SubsetKind.cff, critA)],
            interWritten := some inter, outWritten := none,
            copiedInputToOut := false, copiedInterToOut := false }
        else if args.no_second_subset then
          verifyFinal args w Pipe.otf [(SubsetKind.cff, critA)] (some inter)
            false true inter
        else
          match stageCriterion args with
          | Except.error _ => raisedRun Pipe.otf [(SubsetKind.cff, critA)] (some inter)
          | Except.ok critC =>
            match w.subsetRun SubsetKind.ttf inter critC with
            | Except.error _ =>
              raisedRun Pipe.otf [(SubsetKind.cff, critA), (SubsetKind.ttf, critC)]
                (some inter)
            | Except.ok outC =>
              verifyFinal args w Pipe.otf
                [(SubsetKind.cff, critA), (SubsetKind.ttf, critC)] (some inter)
                false false outC

/-- The TrueType path (lines 181-212): a direct subset when any selection
flag is truthy, otherwise a byte-for-byte copy, then the shared final
verification. -/
def ttfRun (args : Args) (w : World) : RunResult :=
  if truthy args.text_file || truthy args.unicodes || truthy args.preset then
    match stageCriterion args with
    | Except.error _ => raisedRun Pipe.ttfSubset [] none
    | Except.ok crit =>
      match w.subsetRun SubsetKind.ttf w.inputBytes crit with
      | Except.error _ => raisedRun Pipe.ttfSubset [(SubsetKind.ttf, crit)] none
      | Except.ok outC =>
        verifyFinal args w Pipe.ttfSubset [(SubsetKind.ttf, crit)] none
          false false outC
  else
    verifyFinal args w Pipe.ttfCopy [] none true false w.inputBytes

/-- Body of the `try` block after the input check, the makedirs and the
mkdtemp: dispatch on the lower-cased extension (lines 107, 111, 181). -/
def mainBody (args : Args) (w : World) : RunResult :=
  if pyLower (splitextExt args.in_font) = ".otf" then otfRun args w
  else ttfRun args w

/-- The whole run of `main` (lines 87-231).  A missing input exits with
code 1 before the output directory or the temp directory is made; on every
other path both are made and the `finally` removes the temp directory. -/
def main (args : Args) (w : World) : RunResult :=
  if w.inputIsFile = false then
    { outcome := Outcome.exited 1, stderr := [exit1Msg args],
      madeOutDir := false, madeTmpDir := false, removedTmpDir := false,
      pipeline := none, subsetCalls := [], interWritten := none,
      outWritten := none, copiedInputToOut := false, copiedInterToOut := false }
  else
    mainBody args w

/-- Criterion resolution written from the specification's precedence rule,
to be compared with the resolution the code performs: a text-file path, if
given, is used; otherwise an explicit unicodes spec, if given; otherwise
the named preset's range string; otherwise the built-in default preset
sc-min.  An option passed as the empty string counts as not given, and an
unknown preset name (excluded by the argparse choices) yields the empty
range. -/
def specCriterion (args : Args) : Criterion :=
  if truthy args.text_file then Criterion.textFile (args.text_file.getD "")
  else if truthy args.unicodes then Criterion.unicodes (args.unicodes.getD "")
  else Criterion.unicodes ((presetsGet (pyOr args.preset "sc-min")).getD "")

/-- Concrete world with a well-behaved parser and succeeding tools, used to
instantiate universally quantified theorems. -/
def cWorldGood : World :=
  { inputIsFile := true, inputBytes := [7],
    parse := fun _ => some { hasGlyf := true, hasLoca := true, maxp := some 600 },
    subsetRun := fun _ _ _ => Except.ok [1],
    ffRun := fun _ => Except.ok [2] }

/-- Concrete world whose parser fails on everything. -/
def cWorldBadParse : World :=
  { inputIsFile := true, inputBytes := [7],
    parse := fun _ => none,
    subsetRun := fun _ _ _ => Except.ok [1],
    ffRun := fun _ => Except.ok [2] }

/-- Concrete world in which the input path is not a file. -/
def cWorldNoFile : World :=
  { inputIsFile := false, inputBytes := [7],
    parse := fun _ => none,
    subsetRun := fun _ _ _ => Except.ok [1],
    ffRun := fun _ => Except.ok [2] }

/-- Concrete arguments for an OTF input with implicit default preset. -/
def cArgsOtf : Args :=
  { in_font := "in.otf", out_font := "out.ttf", preset := none, unicodes := none,
    text_file := none, no_second_subset := false, min_glyphs := 500 }

/-- Concrete arguments for an OTF input with the second subset skipped. -/
def cArgsOtfSkip : Args :=
  { in_font := "in.otf", out_font := "out.ttf", preset := none, unicodes := none,
    text_file := none, no_second_subset := true, min_glyphs := 500 }

/-- Concrete arguments for a TrueType input with no selection flags. -/
def cArgsTtf : Args :=
  { in_font := "in.ttf", out_font := "out.ttf", preset := none, unicodes := none,
    text_file := none, no_second_subset := false, min_glyphs := 500 }

lemma stageCriterion_ok (args : Args) (c : Criterion)
    (h : stageCriterion args = Except.ok c) : c = specCriterion args := by
  unfold stageCriterion at h
  unfold specCriterion
  split at h
  case isTrue ht =>
    simp only [Except.ok.injEq] at h
    simp [ht, h]
  case isFalse ht =>
    simp only [Bool.not_eq_true] at ht
    split at h
    case h_1 u heq =>
      simp only [Except.ok.injEq] at h
      subst h
      unfold resolveU at heq
      simp [ht]
      cases hu : args.unicodes with
      | none =>
        simp [hu] at heq
        simp [truthy, heq]
      | some s =>
        simp [hu] at heq
        by_cases hs : s = ""
        · simp [hs] at heq
          simp [truthy, hs, heq]
        · simp [hs] at heq
          subst heq
          simp [truthy, hs]
    case h_2 => exact absurd h (by simp)

lemma main_pipeline_char (args : Args) (w : World) (h : w.inputIsFile = true) :
    (main args w).pipeline =
      some (if pyLower (splitextExt args.in_font) = ".otf" then Pipe.otf
        else if truthy args.text_file || truthy args.unicodes || truthy args.preset
          then Pipe.ttfSubset
        else Pipe.ttfCopy) := by
  simp only [main, mainBody, otfRun, ttfRun, verifyFinal, raisedRun, h]
  repeat' split
  all_goals simp_all

lemma main_calls_from_stageCriterion (args : Args) (w : World)
    (call : SubsetKind × Criterion) (hc : call ∈ (main args w).subsetCalls) :
    stageCriterion args = Except.ok call.2 := by
  revert hc
  simp only [main, mainBody, otfRun, ttfRun, verifyFinal, raisedRun]
  repeat' split
  all_goals intro hc
  all_goals simp_all
  all_goals (rcases hc with hc | hc <;> simp [hc])

/-- C1: at the intermediate checkpoint after Stage B, a font missing the
glyf or loca table or with glyph count below the configured minimum makes
the run exit with code 2; at the final checkpoint, a failing output makes
it exit with code 3, and otherwise the run exits with code 0. -/
theorem C1_verification_exit_codes (args : Args) (w : World) :
    (∀ c, (main args w).interWritten = some c →
        failsCheck args.min_glyphs w c = true →
        (main args w).outcome = Outcome.exited 2)
    ∧ (∀ c, (main args w).outWritten = some c →
        (failsCheck args.min_glyphs w c = true →
            (main args w).outcome = Outcome.exited 3)
        ∧ (failsCheck args.min_glyphs w c = false →
            (main args w).outcome = Outcome.exited 0)) := by
  simp only [main, mainBody, otfRun, ttfRun, verifyFinal, raisedRun]
  repeat' split
  all_goals simp_all

/-- C1 witness: a concrete OTF run whose intermediate font fails to parse
exits with code 2. -/
theorem C1_verification_exit_codes_witness :
    (main cArgsOtf cWorldBadParse).outcome = Outcome.exited 2 :=
  (C1_verification_exit_codes cArgsOtf cWorldBadParse).1 [2] (by decide) (by decide)

/-- C2: the selection criterion of every subsetting invocation of a run
(Stage A, Stage C and the direct TrueType path alike) is the one the spec
precedence prescribes: text file over explicit unicodes over named preset
over the default preset sc-min. -/
theorem C2_criterion_precedence (args : Args) (w : World) :
    ∀ call ∈ (main args w).subsetCalls, call.2 = specCriterion args := by
  intro call hc
  exact stageCriterion_ok args call.2 (main_calls_from_stageCriterion args w call hc)

/-- C2 witness: the Stage A call of a concrete defaulted OTF run uses the
sc-min preset range. -/
theorem C2_criterion_precedence_witness :
    ((SubsetKind.cff,
        Criterion.unicodes
          "U+0020-007E,U+00A0-00FF,U+2000-206F,U+3000-303F,U+FF00-FFEF,U+4E00-9FFF") :
      SubsetKind × Criterion).2 = specCriterion cArgsOtf :=
  C2_criterion_precedence cArgsOtf cWorldGood _ (by decide)

/-- C3: a missing input path makes the run print an error to stderr and
exit with code 1 before any filesystem write: the output directory is not
created, no temporary directory is made, and nothing is written. -/
theorem C3_missing_input_fails_fast (args : Args) (w : World)
    (h : w.inputIsFile = false) :
    (main args w).outcome = Outcome.exited 1
    ∧ (main args w).stderr = ["ERROR: input not found: " ++ args.in_font]
    ∧ (main args w).madeOutDir = false
    ∧ (main args w).madeTmpDir = false
    ∧ (main args w).interWritten = none
    ∧ (main args w).outWritten = none := by
  simp [main, h, exit1Msg]

/-- C3 witness: the fail-fast behaviour of a concrete run on a missing
input. -/
theorem C3_missing_input_fails_fast_witness :
    (main cArgsOtf cWorldNoFile).outcome = Outcome.exited 1
    ∧ (main cArgsOtf cWorldNoFile).madeTmpDir = false :=
  ⟨(C3_missing_input_fails_fast cArgsOtf cWorldNoFile rfl).1,
    (C3_missing_input_fails_fast cArgsOtf cWorldNoFile rfl).2.2.2.1⟩

/-- C4: an input whose lower-cased extension is not .otf, run with none of
the preset, unicodes or text-file options, gets copied byte for byte to
the output path. -/
theorem C4_ttf_copy_when_no_flags (args : Args) (w : World)
    (h1 : w.inputIsFile = true)
    (h2 : ¬ pyLower (splitextExt args.in_font) = ".otf")
    (h3 : args.text_file = none) (h4 : args.unicodes = none)
    (h5 : args.preset = none) :
    (main args w).outWritten = some w.inputBytes
    ∧ (main args w).copiedInputToOut = true := by
  simp only [main, mainBody, ttfRun, verifyFinal, h1, h2, h3, h4, h5]
  simp only [truthy]
  repeat' split
  all_goals simp_all

/-- C4 witness: a concrete flagless TrueType run copies the input bytes to
the output. -/
theorem C4_ttf_copy_when_no_flags_witness :
    (main cArgsTtf cWorldGood).outWritten = some cWorldGood.inputBytes :=
  (C4_ttf_copy_when_no_flags cArgsTtf cWorldGood rfl (by decide) rfl rfl rfl).1

/-- C5: check_ttf_tables is a total function of the parse outcome: on any
parse failure it returns (false, false, false, -1), and on a successful
parse whose maxp table is present it returns the glyf-and-loca conjunction,
the two presence flags and the maxp glyph count. -/
theorem C5_check_ttf_tables_total :
    check_ttf_tables none = (false, false, false, -1)
    ∧ ∀ (t : FontTables) (n : Int), t.maxp = some n →
        check_ttf_tables (some t) =
          (t.hasGlyf && t.hasLoca, t.hasGlyf, t.hasLoca, n) := by
  refine ⟨rfl, ?_⟩
  intro t n h
  simp [check_ttf_tables, h]

/-- C5 witness: evaluation on a concrete parsed font. -/
theorem C5_check_ttf_tables_total_witness :
    check_ttf_tables (some { hasGlyf := true, hasLoca := false, maxp := some 7 }) =
      (true && false, true, false, 7) :=
  C5_check_ttf_tables_total.2 { hasGlyf := true, hasLoca := false, maxp := some 7 } 7 rfl

/-- C6: whenever the temporary directory is created, it is removed before
the process terminates, on every terminal path: exit 0, exit 2, exit 3 and
an uncaught exception alike. -/
theorem C6_tmpdir_always_removed (args : Args) (w : World)
    (h : (main args w).madeTmpDir = true) :
    (main args w).removedTmpDir = true := by
  revert h
  simp only [main, mainBody, otfRun, ttfRun, verifyFinal, raisedRun]
  repeat' split
  all_goals intro h
  all_goals simp_all

/-- C6 witness: cleanup on a concrete successful run. -/
theorem C6_tmpdir_always_removed_witness :
    (main cArgsOtf cWorldGood).removedTmpDir = true :=
  C6_tmpdir_always_removed cArgsOtf cWorldGood (by decide)

/-- C7: an OTF run with the second subset skipped that passes the
intermediate check performs no TrueType subsetting invocation and copies
the Stage B intermediate unchanged to the output, so the final output's
glyph count equals the intermediate glyph count. -/
theorem C7_no_second_subset_copies (args : Args) (w : World) (c : List Nat)
    (h1 : w.inputIsFile = true)
    (h2 : pyLower (splitextExt args.in_font) = ".otf")
    (h3 : args.no_second_subset = true)
    (h4 : (main args w).interWritten = some c)
    (h5 : failsCheck args.min_glyphs w c = false) :
    (main args w).outWritten = some c
    ∧ (main args w).copiedInterToOut = true
    ∧ (∀ k cr, (k, cr) ∈ (main args w).subsetCalls → k = SubsetKind.cff)
    ∧ ∃ oc, (main args w).outWritten = some oc
        ∧ (check_ttf_tables (w.parse oc)).2.2.2 =
            (check_ttf_tables (w.parse c)).2.2.2 := by
  revert h4
  simp only [main, mainBody, otfRun, ttfRun, verifyFinal, raisedRun, h1, h2, h3]
  repeat' split
  all_goals intro h4
  all_goals simp_all

/-- C7 witness: a concrete skip-second-subset run copies the intermediate
bytes to the output. -/
theorem C7_no_second_subset_copies_witness :
    (main cArgsOtfSkip cWorldGood).outWritten = some [2]
    ∧ (main cArgsOtfSkip cWorldGood).copiedInterToOut = true :=
  ⟨(C7_no_second_subset_copies cArgsOtfSkip cWorldGood [2] rfl (by decide) rfl
      (by decide) (by decide)).1,
    (C7_no_second_subset_copies cArgsOtfSkip cWorldGood [2] rfl (by decide) rfl
      (by decide) (by decide)).2.1⟩

/-- C8: the preset table holds exactly the names sc-min, tc-min, sc-bmp
and tc-bmp, the first two mapping to the six-range string for Basic Latin,
Latin-1 Supplement, General Punctuation, CJK Symbols and Punctuation,
Halfwidth and Fullwidth Forms and the CJK Unified Ideographs, the last two
to the same string extended with the Extension A range U+3400-4DBF. -/
theorem C8_presets_table :
    PRESETS.map Prod.fst = ["sc-min", "tc-min", "sc-bmp", "tc-bmp"]
    ∧ presetsGet "sc-min" =
        some "U+0020-007E,U+00A0-00FF,U+2000-206F,U+3000-303F,U+FF00-FFEF,U+4E00-9FFF"
    ∧ presetsGet "tc-min" =
        some "U+0020-007E,U+00A0-00FF,U+2000-206F,U+3000-303F,U+FF00-FFEF,U+4E00-9FFF"
    ∧ presetsGet "sc-bmp" =
        some ("U+0020-007E,U+00A0-00FF,U+2000-206F,U+3000-303F,U+FF00-FFEF,U+4E00-9FFF"
          ++ ",U+3400-4DBF")
    ∧ presetsGet "tc-bmp" =
        some ("U+0020-007E,U+00A0-00FF,U+2000-206F,U+3000-303F,U+FF00-FFEF,U+4E00-9FFF"
          ++ ",U+3400-4DBF") := by
  refine ⟨rfl, by decide, by decide, by decide, by decide⟩

/-- C9: pipeline dispatch is decided solely by the lower-cased filename
extension: exactly the inputs whose extension lowers to .otf take the
three-stage OTF pipeline, every other input takes the TrueType path, and
the choice is independent of the input bytes and the parser, with the
case-variant, .woff and extensionless examples evaluated. -/
theorem C9_dispatch_by_extension (args : Args) (w : World)
    (h : w.inputIsFile = true) :
    ((main args w).pipeline = some Pipe.otf ↔
        pyLower (splitextExt args.in_font) = ".otf")
    ∧ ((main args w).pipeline = some Pipe.otf
        ∨ (main args w).pipeline = some Pipe.ttfSubset
        ∨ (main args w).pipeline = some Pipe.ttfCopy)
    ∧ (∀ w2 : World, w2.inputIsFile = true →
        (main args w2).pipeline = (main args w).pipeline)
    ∧ pyLower (splitextExt "font.OTF") = ".otf"
    ∧ pyLower (splitextExt "font.Otf") = ".otf"
    ∧ pyLower (splitextExt "font.woff") = ".woff"
    ∧ splitextExt "fontnoext" = "" := by
  have hp := main_pipeline_char args w h
  refine ⟨?_, ?_, ?_, by decide, by decide, by decide, by decide⟩
  · rw [hp]
    by_cases he : pyLower (splitextExt args.in_font) = ".otf"
    · simp [he]
    · simp only [he, if_false]
      constructor
      · intro hq
        exfalso
        revert hq
        split <;> simp
      · intro hq
        exact hq.elim
  · rw [hp]
    by_cases he : pyLower (splitextExt args.in_font) = ".otf"
    · simp [he]
    · simp only [he, if_false]
      split <;> simp
  · intro w2 h2
    rw [main_pipeline_char args w2 h2, hp]

/-- C9 witness: the dispatch equivalence evaluated on a concrete OTF run. -/
theorem C9_dispatch_by_extension_witness :
    (main cArgsOtf cWorldGood).pipeline = some Pipe.otf ↔
      pyLower (splitextExt cArgsOtf.in_font) = ".otf" :=
  (C9_dispatch_by_extension cArgsOtf cWorldGood rfl).1

/-- C10: a run that exits with code 3 leaves the failing artifact in place
at the output path: the bytes written there are still present at
termination and they are exactly the bytes that failed the final check. -/
theorem C10_exit3_output_left (args : Args) (w : World)
    (h : (main args w).outcome = Outcome.exited 3) :
    ∃ c, (main args w).outWritten = some c
      ∧ failsCheck args.min_glyphs w c = true := by
  revert h
  simp only [main, mainBody, otfRun, ttfRun, verifyFinal, raisedRun]
  repeat' split
  all_goals intro h
  all_goals simp_all

/-- C10 witness: a concrete copy-through run whose output fails to parse
exits with code 3 and leaves the copied bytes at the output path. -/
theorem C10_exit3_output_left_witness :
    ∃ c, (main cArgsTtf cWorldBadParse).outWritten = some c
      ∧ failsCheck cArgsTtf.min_glyphs cWorldBadParse c = true :=
  C10_exit3_output_left cArgsTtf cWorldBadParse (by decide)

end BuildNoto
